import Mathlib

set_option autoImplicit false

/-!
Formal model of FloatChat's deterministic synthetic-data and filter pipeline.

The definitions below are shallow embeddings of the Python source:
`src/app.py` (seeded_rng, generate_dummy_map_data, build_filtered_dataset,
compute_parameter_snapshot, generate_dummy_export_df, generate_chat_driven_plots)
and `src/utils/enhanced_data_generator.py` (EnhancedDataGenerator.apply_chat_filters,
EnhancedDataGenerator.generate_chat_driven_plots).

Numeric columns are modelled as rationals, dates/timestamps as integer day
counts since 1970-01-01.  numpy's random generator is modelled as an abstract
family of deterministic draw functions indexed by the distribution arguments
and the sample position; the model of np.random.default_rng is passed as an
explicit parameter, so every pipeline function is a pure function of that
parameter, the current calendar day, and its own arguments.
-/

/-- Model of the generator object returned by np.random.default_rng(seed).
Each field models one numpy draw method: the extra Nat arguments are the
requested array size and the index of the sample inside the drawn array. -/
structure NumpyRng where
  uniform : ℚ → ℚ → Nat → Nat → ℚ
  choice : List String → Nat → Nat → String
  integers : Int → Int → Nat → Nat → Int
  normal : ℚ → ℚ → Nat → Nat → ℚ

/-- Seed computed inside seeded_rng (src/app.py line 845):
`seed = sum(ord(char) for char in label) % (2**32 - 1)` followed by the
Python coercion `seed or 1`, which replaces a zero seed by 1. -/
def seeded_rng_seed (label : String) : Nat :=
  let seed := (label.data.map Char.toNat).sum % (2 ^ 32 - 1)
  if seed = 0 then 1 else seed

/-- seeded_rng (src/app.py lines 842-846): return a deterministic random
generator for the supplied label, via np.random.default_rng (modelled by the
explicit default_rng parameter). -/
def seeded_rng (default_rng : Nat → NumpyRng) (label : String) : NumpyRng :=
  default_rng (seeded_rng_seed label)

/-- One row of the DataFrame built by generate_dummy_map_data
(src/app.py lines 1073-1109).  timestamp and last_profile are day counts. -/
structure FloatRecord where
  float_id : String
  region : String
  latitude : ℚ
  longitude : ℚ
  depth : ℚ
  float_status : String
  float_type : String
  timestamp : Int
  temperature : ℚ
  salinity : ℚ
  cycle_number : Int
  battery_level : ℚ
  last_profile : Int
  hover : String
deriving DecidableEq

/-- The fields of REGION_CONFIGS (src/app.py lines 148-239) consumed by
generate_dummy_map_data; the remaining entries (center, zoom, title,
description, dropdown_defaults) are UI-only and never read by the pipeline. -/
structure RegionConfig where
  lat_range : ℚ × ℚ
  lon_range : ℚ × ℚ
  point_count : Nat
deriving DecidableEq

def DEFAULT_REGION : String := "indian_ocean"

/-- REGION_CONFIGS (src/app.py lines 148-239), restricted to the fields the
generator reads. -/
def REGION_CONFIGS : List (String × RegionConfig) :=
  [ ("indian_ocean", ⟨(-20, 20), (50, 100), 12⟩)
  , ("arabian_sea", ⟨(12, 22), (56, 70), 8⟩)
  , ("bay_of_bengal", ⟨(5, 22), (80, 95), 10⟩)
  , ("equatorial_band", ⟨(-5, 5), (-40, 10), 9⟩)
  , ("global_float_network", ⟨(-35, 35), (-80, 60), 18⟩)
  , ("atlantic_basin", ⟨(-40, 45), (-80, 10), 20⟩)
  , ("pacific_basin", ⟨(-45, 35), (-180, -100), 24⟩)
  , ("southern_ocean", ⟨(-70, -45), (-10, 80), 16⟩)
  , ("deep_profile_window", ⟨(-10, 2), (145, 165), 6⟩) ]

/-- Model of `REGION_CONFIGS.get(region, REGION_CONFIGS[DEFAULT_REGION])`
(src/app.py line 1050). -/
def regionConfigOf (region : String) : RegionConfig :=
  match REGION_CONFIGS.lookup region with
  | some c => c
  | none => ((REGION_CONFIGS.lookup DEFAULT_REGION).getD ⟨(-20, 20), (55, 95), 12⟩)

/-- The `value` entries of FLOAT_STATUS_OPTIONS (src/app.py lines 108-112). -/
def floatStatusValues : List String := ["Active", "Inactive", "Maintenance"]

/-- The `value` entries of FLOAT_TYPE_OPTIONS (src/app.py lines 114-118). -/
def floatTypeValues : List String := ["Core", "Bio", "Deep"]

/-- PARAMETER_COLUMN_MAP (src/app.py lines 127-131). -/
def PARAMETER_COLUMN_MAP : List (String × String) :=
  [("Temperature", "temperature"), ("Salinity", "salinity"), ("Depth", "depth")]

/-- PARAMETER_UNITS (src/app.py lines 133-137). -/
def PARAMETER_UNITS : List (String × String) :=
  [("Temperature", "°C"), ("Salinity", "PSU"), ("Depth", "m")]

/-- A decimal digit character: models the digits produced by Python's
zero-padded integer formatting. -/
def digitChar (n : Nat) : Char := Char.ofNat (48 + n % 10)

/-- Zero-padded 2-digit rendering (strftime's %m / %d). -/
def pad2dig (n : Nat) : String := String.mk [digitChar (n / 10), digitChar n]

/-- Zero-padded 4-digit rendering (strftime's %Y; pd.Timestamp years always
lie in 1677-2262, hence within the 4-digit range this covers). -/
def pad4dig (n : Nat) : String :=
  String.mk [digitChar (n / 1000), digitChar (n / 100), digitChar (n / 10), digitChar n]

/-- Gregorian (year, month, day) of a day count since 1970-01-01; standard
civil-from-days calendar algorithm, modelling Python date arithmetic. -/
def civilFromDays (z0 : Int) : Int × Nat × Nat :=
  let z : Int := z0 + 719468
  let era : Int := Int.fdiv z 146097
  let doe : Int := z - era * 146097
  let yoe : Int := Int.fdiv (doe - Int.fdiv doe 1460 + Int.fdiv doe 36524 - Int.fdiv doe 146096) 365
  let y : Int := yoe + era * 400
  let doy : Int := doe - (365 * yoe + Int.fdiv yoe 4 - Int.fdiv yoe 100)
  let mp : Int := Int.fdiv (5 * doy + 2) 153
  let d : Int := doy - Int.fdiv (153 * mp + 2) 5 + 1
  let m : Int := if mp < 10 then mp + 3 else mp - 9
  (if m ≤ 2 then y + 1 else y, m.toNat, d.toNat)

/-- The string `%Y-%m-%d` for a (year, month, day) triple. -/
def ymdString (y m d : Nat) : String :=
  pad4dig y ++ "-" ++ pad2dig m ++ "-" ++ pad2dig d

/-- strftime("%Y-%m-%d") on a day count (used at the export boundary and by
_format_last_profile inside generate_dummy_map_data). -/
def formatYMD (z : Int) : String :=
  ymdString (civilFromDays z).1.toNat (civilFromDays z).2.1 (civilFromDays z).2.2

def leftPadZeros (k : Nat) (s : String) : String :=
  if s.length < k then String.mk (List.replicate (k - s.length) '0') ++ s else s

/-- Fixed-point decimal rendering of a rational, modelling Python's
f"{x:.Nf}" formatting (rounding half away from zero; the float formatter's
half-to-even ties differ only cosmetically and only inside hover text). -/
def fmtFixed (prec : Nat) (q : ℚ) : String :=
  let scaled : Int := Int.floor (q * (10 : ℚ) ^ prec + 1 / 2)
  let sign := if scaled < 0 then "-" else ""
  let n := scaled.natAbs
  let ip := n / 10 ^ prec
  let fp := n % 10 ^ prec
  if prec = 0 then sign ++ toString ip
  else sign ++ toString ip ++ "." ++ leftPadZeros prec (toString fp)

/-- Python's f"{n:03d}" for the float sequence number. -/
def pad3num (n : Nat) : String :=
  if n < 10 then "00" ++ toString n
  else if n < 100 then "0" ++ toString n
  else toString n

/-- The hover string assembled at src/app.py lines 1102-1109. -/
def hoverText (float_id float_status float_type : String) (cycle_number : Int)
    (depth temperature salinity battery_level : ℚ) (last_profile : Int) : String :=
  float_id ++ " • " ++ float_status ++ " " ++ float_type ++ " • Cycle " ++ toString cycle_number
    ++ "<br>" ++ "Depth: " ++ fmtFixed 0 depth ++ " m | Temp: " ++ fmtFixed 2 temperature
    ++ " °C | Sal: " ++ fmtFixed 2 salinity ++ " PSU<br>" ++ "Battery: "
    ++ fmtFixed 1 battery_level ++ "% | Last profile: " ++ formatYMD last_profile

/-- generate_dummy_map_data (src/app.py lines 1043-1110): create a
deterministic float catalog for the supplied region.  `today` is the day
count of date.today() at invocation time. -/
def generate_dummy_map_data (default_rng : Nat → NumpyRng) (today : Int)
    (region : String) : List FloatRecord :=
  let config := regionConfigOf region
  let point_count := max (config.point_count * 10) 200
  let lat_range := config.lat_range
  let lon_range := config.lon_range
  let rng := seeded_rng default_rng (region ++ "-map")
  let base_date : Int := today - 30
  (List.range point_count).map (fun i =>
    let depth := rng.uniform 0 4500 point_count i
    let temperature := 20 - (5 : ℚ) / 1000 * depth + rng.normal 0 ((35 : ℚ) / 100) point_count i
    let salinity := 35 + rng.normal 0 ((2 : ℚ) / 10) point_count i
    let float_id := (region.take 2).toUpper ++ "-" ++ pad3num (i + 1)
    let float_status := rng.choice floatStatusValues point_count i
    let float_type := rng.choice floatTypeValues point_count i
    let cycle_number := rng.integers 10 300 point_count i
    let battery_level := rng.uniform 15 100 point_count i
    let last_profile := today - rng.integers 0 15 point_count i
    { float_id := float_id
      region := region
      latitude := rng.uniform lat_range.1 lat_range.2 point_count i
      longitude := rng.uniform lon_range.1 lon_range.2 point_count i
      depth := depth
      float_status := float_status
      float_type := float_type
      timestamp := base_date + rng.integers 0 30 point_count i
      temperature := temperature
      salinity := salinity
      cycle_number := cycle_number
      battery_level := battery_level
      last_profile := last_profile
      hover := hoverText float_id float_status float_type cycle_number depth temperature
        salinity battery_level last_profile })

/-- One range-filter block of build_filtered_dataset (src/app.py lines
1131-1141): `lo, hi = sorted(range); dataset[dataset[col].between(lo, hi)]`,
applied only when the range argument is present. -/
def rangeStage (proj : FloatRecord → ℚ) (range : Option (ℚ × ℚ))
    (dataset : List FloatRecord) : List FloatRecord :=
  match range with
  | none => dataset
  | some (a, b) =>
      dataset.filter (fun r => decide (min a b ≤ proj r) && decide (proj r ≤ max a b))

/-- The date-window block of build_filtered_dataset (src/app.py lines
1143-1147): active only when the range is supplied and both endpoints are
truthy (`if date_range and all(date_range)`). -/
def dateStage (date_range : Option (Option Int × Option Int))
    (dataset : List FloatRecord) : List FloatRecord :=
  match date_range with
  | some (some start_date, some end_date) =>
      dataset.filter (fun r => decide (start_date ≤ r.timestamp) && decide (r.timestamp ≤ end_date))
  | _ => dataset

/-- The status block of build_filtered_dataset (src/app.py lines 1149-1150):
`if statuses: dataset[dataset["float_status"].isin(statuses)]` (an absent or
empty list is falsy, hence no constraint). -/
def statusStage (statuses : Option (List String))
    (dataset : List FloatRecord) : List FloatRecord :=
  match statuses with
  | none => dataset
  | some [] => dataset
  | some sts => dataset.filter (fun r => sts.contains r.float_status)

/-- The float-type block of build_filtered_dataset (src/app.py lines
1152-1153). -/
def typeStage (float_types : Option (List String))
    (dataset : List FloatRecord) : List FloatRecord :=
  match float_types with
  | none => dataset
  | some [] => dataset
  | some tys => dataset.filter (fun r => tys.contains r.float_type)

/-- Stable insertion of a record into a timestamp-sorted list. -/
def insertByTimestamp (x : FloatRecord) : List FloatRecord → List FloatRecord
  | [] => [x]
  | y :: ys => if y.timestamp ≤ x.timestamp then y :: insertByTimestamp x ys else x :: y :: ys

/-- Model of `dataset.sort_values("timestamp")` (src/app.py line 1155), as a
deterministic sort by timestamp. -/
def sortByTimestamp : List FloatRecord → List FloatRecord
  | [] => []
  | x :: xs => insertByTimestamp x (sortByTimestamp xs)

/-- build_filtered_dataset (src/app.py lines 1113-1155): generate a
deterministic dataset for the selected regions and apply the sidebar filters
in memory.  `regions or []` falling back to `[DEFAULT_REGION]` is modelled by
the region_keys computation. -/
def build_filtered_dataset (default_rng : Nat → NumpyRng) (today : Int)
    (regions : Option (List String)) (lat_range lon_range depth_range : Option (ℚ × ℚ))
    (date_range : Option (Option Int × Option Int))
    (statuses float_types : Option (List String)) : List FloatRecord :=
  let region_keys := (regions.getD [])
  let region_keys := if region_keys = [] then [DEFAULT_REGION] else region_keys
  let dataset := (region_keys.map (generate_dummy_map_data default_rng today)).flatten
  let dataset := rangeStage (fun r => r.latitude) lat_range dataset
  let dataset := rangeStage (fun r => r.longitude) lon_range dataset
  let dataset := rangeStage (fun r => r.depth) depth_range dataset
  let dataset := dateStage date_range dataset
  let dataset := statusStage statuses dataset
  let dataset := typeStage float_types dataset
  sortByTimestamp dataset

/-- The value placed in a result snapshot by compute_parameter_snapshot. -/
structure Snapshot where
  label : String
  value : ℚ
  unit : String
  method : String
deriving DecidableEq

def qMean (l : List ℚ) : ℚ := l.sum / (l.length : ℚ)

def qInsertSorted (x : ℚ) : List ℚ → List ℚ
  | [] => [x]
  | y :: ys => if y ≤ x then y :: qInsertSorted x ys else x :: y :: ys

def qSort : List ℚ → List ℚ
  | [] => []
  | x :: xs => qInsertSorted x (qSort xs)

/-- pandas Series.median: middle element of the sorted values, or the mean of
the two middle elements for an even count. -/
def qMedian (l : List ℚ) : ℚ :=
  let s := qSort l
  let n := s.length
  if n % 2 = 1 then s.getD (n / 2) 0 else (s.getD (n / 2 - 1) 0 + s.getD (n / 2) 0) / 2

def qMinimum (l : List ℚ) : ℚ :=
  match l with
  | [] => 0
  | x :: xs => xs.foldl min x

def qMaximum (l : List ℚ) : ℚ :=
  match l with
  | [] => 0
  | x :: xs => xs.foldl max x

/-- The columns of the DataFrame produced by generate_dummy_map_data. -/
def floatRecordColumns : List String :=
  [ "float_id", "region", "latitude", "longitude", "depth", "float_status", "float_type"
  , "timestamp", "temperature", "salinity", "cycle_number", "battery_level", "last_profile"
  , "hover" ]

/-- Numeric view of a FloatRecord column (the generated columns carry no
missing values, so Series.dropna is the identity on them). -/
def floatColVal (column : String) (r : FloatRecord) : ℚ :=
  if column == "latitude" then r.latitude
  else if column == "longitude" then r.longitude
  else if column == "depth" then r.depth
  else if column == "temperature" then r.temperature
  else if column == "salinity" then r.salinity
  else if column == "battery_level" then r.battery_level
  else if column == "cycle_number" then (r.cycle_number : ℚ)
  else if column == "timestamp" then (r.timestamp : ℚ)
  else 0

/-- compute_parameter_snapshot (src/app.py lines 1158-1191).  `parameter` and
`method` are optional; Python falsiness of an empty string is modelled
explicitly. -/
def compute_parameter_snapshot (dataset : List FloatRecord)
    (parameter : Option String) (method : Option String) : Option Snapshot :=
  match parameter with
  | none => none
  | some p =>
    if dataset.isEmpty || p == "" then none
    else if p == "Location" then
      some ⟨"Unique Floats", (((dataset.map (fun r => r.float_id)).dedup.length : ℚ)), "count", "Count"⟩
    else
      match PARAMETER_COLUMN_MAP.lookup p with
      | none => none
      | some column =>
        if !(floatRecordColumns.contains column) then none
        else
          let series := dataset.map (floatColVal column)
          if series.isEmpty then none
          else
            let m := match method with
              | none => "Mean"
              | some s => if s == "" then "Mean" else s
            let value :=
              if m == "Mean" then qMean series
              else if m == "Median" then qMedian series
              else if m == "Min" then qMinimum series
              else if m == "Max" then qMaximum series
              else qMean series
            some ⟨p, value, (PARAMETER_UNITS.lookup p).getD "", m⟩

/-- Substring test on character lists (Python's `needle in hay`). -/
def isSubstr (needle : List Char) : List Char → Bool
  | [] => needle == []
  | c :: rest => needle.isPrefixOf (c :: rest) || isSubstr needle rest

/-- Python's `needle in hay` on strings. -/
def strIn (needle hay : String) : Bool := isSubstr needle.data hay.data

/-- Python's str.lower(), character-wise (ASCII inputs only occur here). -/
def toLowerStr (s : String) : String := String.mk (s.data.map Char.toLower)

/-- A cell of a duck-typed DataFrame handled by apply_chat_filters and the
export projection. -/
inductive ChatVal where
  | num (q : ℚ)
  | str (s : String)
  | date (d : Int)
deriving DecidableEq

/-- A row of a duck-typed DataFrame: an association of column names to cells. -/
def ChatRow : Type := List (String × ChatVal)

instance : DecidableEq ChatRow := by
  unfold ChatRow
  infer_instance

/-- A duck-typed DataFrame: its column list and its rows. -/
structure ChatFrame where
  columns : List String
  rows : List ChatRow
deriving DecidableEq

def rowStrVal (r : ChatRow) (col : String) : Option String :=
  match List.lookup col r with
  | some (ChatVal.str s) => some s
  | _ => none

def rowNumVal (r : ChatRow) (col : String) : Option ℚ :=
  match List.lookup col r with
  | some (ChatVal.num q) => some q
  | _ => none

/-- Predicate of `df[df[col] < bound]` for a numeric column. -/
def depthLtPred (col : String) (bound : ℚ) (r : ChatRow) : Bool :=
  match rowNumVal r col with
  | some q => decide (q < bound)
  | none => false

/-- Predicate of `df[df[col] > bound]` for a numeric column. -/
def depthGtPred (col : String) (bound : ℚ) (r : ChatRow) : Bool :=
  match rowNumVal r col with
  | some q => decide (q > bound)
  | none => false

/-- Predicate of `df[df[col].between(lo, hi)]` for a numeric column. -/
def betweenPred (col : String) (lo hi : ℚ) (r : ChatRow) : Bool :=
  match rowNumVal r col with
  | some q => decide (lo ≤ q) && decide (q ≤ hi)
  | none => false

/-- The filters_applied dictionary assembled by apply_chat_filters
(src/utils/enhanced_data_generator.py lines 175-257), with one optional
field per key the code may set. -/
structure FiltersApplied where
  region : Option (List String)
  status : Option String
  depth : Option String
  float_type : Option String
  parameter_focus : Option String
  analysis_type : Option String
deriving DecidableEq

namespace EnhancedDataGenerator

/-- The keys of self.ocean_regions
(src/utils/enhanced_data_generator.py lines 20-28), in insertion order. -/
def oceanRegionNames : List String :=
  [ "Arabian Sea", "Bay of Bengal", "Indian Ocean", "Pacific Ocean"
  , "Atlantic Ocean", "Southern Ocean", "Arctic Ocean" ]

/-- self.float_types (line 30). -/
def float_types : List String := ["APEX", "NOVA", "ARVOR", "PROVOR", "SOLO"]

/-- Region-filter block (lines 182-190). -/
def chatRegionFilter (ql : String) (rows : List ChatRow) :
    List ChatRow × Option (List String) :=
  let detected := oceanRegionNames.filter (fun rg => strIn (toLowerStr rg) ql)
  if detected.isEmpty then (rows, none)
  else
    (rows.filter (fun r =>
        match rowStrVal r "region" with
        | some s => detected.contains s
        | none => false),
     some detected)

/-- Status-filter block (lines 192-200).  The keyword list for the Active
branch is checked first, so a query containing "inactive" (which contains
"active" as a substring) also lands in the Active branch. -/
def chatStatusFilter (ql : String) (cols : List String) (rows : List ChatRow) :
    List ChatRow × Option String :=
  if ["active", "working", "operational"].any (fun w => strIn w ql) then
    if cols.contains "float_status" then
      (rows.filter (fun r => rowStrVal r "float_status" == some "Active"), some "Active")
    else (rows, none)
  else if ["inactive", "not working", "dead"].any (fun w => strIn w ql) then
    if cols.contains "float_status" then
      (rows.filter (fun r => rowStrVal r "float_status" == some "Inactive"), some "Inactive")
    else (rows, none)
  else (rows, none)

/-- Depth-filter block (lines 202-222): the available depth column is
detected first ("depth" preferred over "max_depth") and the numeric
threshold depends on which column was found. -/
def chatDepthFilter (ql : String) (cols : List String) (rows : List ChatRow) :
    List ChatRow × Option String :=
  let depth_col : Option String :=
    if cols.contains "depth" then some "depth"
    else if cols.contains "max_depth" then some "max_depth"
    else none
  match depth_col with
  | none => (rows, none)
  | some dc =>
    if ["shallow", "surface", "top"].any (fun w => strIn w ql) then
      if dc == "depth" then (rows.filter (depthLtPred dc 500), some "Shallow (<500m)")
      else (rows.filter (depthLtPred dc 1000), some "Shallow (<1000m)")
    else if ["deep", "bottom", "abyssal"].any (fun w => strIn w ql) then
      if dc == "depth" then (rows.filter (depthGtPred dc 1000), some "Deep (>1000m)")
      else (rows.filter (depthGtPred dc 1500), some "Deep (>1500m)")
    else (rows, none)

/-- Float-type filter block (lines 224-230): the loop breaks at the first
type name found in the query. -/
def chatTypeFilter (ql : String) (cols : List String) (rows : List ChatRow) :
    List ChatRow × Option String :=
  match float_types.find? (fun t => strIn (toLowerStr t) ql) with
  | none => (rows, none)
  | some t =>
    if cols.contains "float_type" then
      (rows.filter (fun r => rowStrVal r "float_type" == some t), some t)
    else (rows, none)

/-- Temperature-focus block (lines 233-238). -/
def chatTempFilter (ql : String) (cols : List String) (rows : List ChatRow) : List ChatRow :=
  if ["temperature", "temp", "thermal"].any (fun w => strIn w ql) then
    if cols.contains "temperature" then rows.filter (betweenPred "temperature" (-2) 40)
    else rows
  else rows

/-- Salinity-focus block (lines 240-245). -/
def chatSalFilter (ql : String) (cols : List String) (rows : List ChatRow) : List ChatRow :=
  if ["salinity", "salt", "psu"].any (fun w => strIn w ql) then
    if cols.contains "salinity" then rows.filter (betweenPred "salinity" 30 40)
    else rows
  else rows

/-- parameter_focus annotation: the temperature block sets it first and the
salinity block overwrites it (lines 233-241). -/
def chatParameterFocus (ql : String) : Option String :=
  if ["salinity", "salt", "psu"].any (fun w => strIn w ql) then some "Salinity"
  else if ["temperature", "temp", "thermal"].any (fun w => strIn w ql) then some "Temperature"
  else none

/-- analysis_type annotation (lines 247-255). -/
def chatAnalysisType (ql : String) : Option String :=
  if ["profile", "depth"].any (fun w => strIn w ql) then some "Profile Analysis"
  else if ["time", "trend", "temporal", "monthly"].any (fun w => strIn w ql) then some "Time Series"
  else if ["compare", "comparison", "versus", "vs"].any (fun w => strIn w ql) then some "Regional Comparison"
  else if ["correlation", "relationship"].any (fun w => strIn w ql) then some "Correlation Analysis"
  else none

/-- EnhancedDataGenerator.apply_chat_filters
(src/utils/enhanced_data_generator.py lines 175-257): filter a copy of
base_data according to the lowercased query and report the applied filters. -/
def apply_chat_filters (query : String) (base_data : ChatFrame) :
    ChatFrame × FiltersApplied :=
  let ql := toLowerStr query
  let s1 := chatRegionFilter ql base_data.rows
  let s2 := chatStatusFilter ql base_data.columns s1.1
  let s3 := chatDepthFilter ql base_data.columns s2.1
  let s4 := chatTypeFilter ql base_data.columns s3.1
  let r5 := chatTempFilter ql base_data.columns s4.1
  let r6 := chatSalFilter ql base_data.columns r5
  (⟨base_data.columns, r6⟩,
   ⟨s1.2, s2.2, s3.2, s4.2, chatParameterFocus ql, chatAnalysisType ql⟩)

end EnhancedDataGenerator

/-- The plot-generation branches appearing in both plot-selection routines. -/
inductive PlotKind where
  | tempProfile
  | salProfile
  | timeSeries
  | comparison
  | correlation
  | overview
deriving DecidableEq

namespace EnhancedDataGenerator

/-- EnhancedDataGenerator.generate_chat_driven_plots
(src/utils/enhanced_data_generator.py lines 259-288), abstracted to the list
of plot branches taken: the five keyword checks are independent `if`
statements, each appending its plot, with an overview fallback when none
fired. -/
def generate_chat_driven_plots (query : String) : List PlotKind :=
  let ql := toLowerStr query
  let plots :=
    (if ["temperature", "temp", "thermal"].any (fun w => strIn w ql) then [PlotKind.tempProfile] else [])
    ++ (if ["salinity", "salt", "psu"].any (fun w => strIn w ql) then [PlotKind.salProfile] else [])
    ++ (if ["time", "trend", "series", "temporal", "monthly"].any (fun w => strIn w ql) then [PlotKind.timeSeries] else [])
    ++ (if ["compare", "comparison", "versus", "vs", "between"].any (fun w => strIn w ql) then [PlotKind.comparison] else [])
    ++ (if ["correlation", "relationship", "vs"].any (fun w => strIn w ql) then [PlotKind.correlation] else [])
  if plots.isEmpty then [PlotKind.overview] else plots

end EnhancedDataGenerator

/-- generate_chat_driven_plots (src/app.py lines 633-664), abstracted to the
list of plot branches taken: an if/elif chain whose temperature and salinity
branches require the parameter keyword AND a "profile" or "depth" keyword;
the overview fallback appends only when the filtered data is non-empty. -/
def generate_chat_driven_plots (user_query : String) (filtered_data_is_empty : Bool) :
    List PlotKind :=
  let ql := toLowerStr user_query
  if strIn "temperature" ql && (strIn "profile" ql || strIn "depth" ql) then [PlotKind.tempProfile]
  else if strIn "salinity" ql && (strIn "profile" ql || strIn "depth" ql) then [PlotKind.salProfile]
  else if ["trend", "time", "series", "monthly"].any (fun w => strIn w ql) then [PlotKind.timeSeries]
  else if strIn "compare" ql || strIn "comparison" ql then [PlotKind.comparison]
  else if strIn "correlation" ql || strIn "relationship" ql then [PlotKind.correlation]
  else if !filtered_data_is_empty then [PlotKind.overview] else []

/-- The base_columns list of generate_dummy_export_df (src/app.py lines
1305-1317). -/
def export_base_columns : List String :=
  [ "float_id", "region", "latitude", "longitude", "timestamp", "float_status"
  , "float_type", "depth", "cycle_number", "battery_level", "last_profile" ]

/-- The rename_map of generate_dummy_export_df (src/app.py lines 1337-1344). -/
def export_rename_map : List (String × String) :=
  [ ("latitude", "Latitude"), ("longitude", "Longitude"), ("timestamp", "Date")
  , ("depth", "Depth_m"), ("temperature", "Temp_C"), ("salinity", "Salinity_PSU") ]

/-- Cell of the export table for one record and one internal column name. -/
def exportCell (r : FloatRecord) (col : String) : ChatVal :=
  if col == "float_id" then ChatVal.str r.float_id
  else if col == "region" then ChatVal.str r.region
  else if col == "latitude" then ChatVal.num r.latitude
  else if col == "longitude" then ChatVal.num r.longitude
  else if col == "timestamp" then ChatVal.date r.timestamp
  else if col == "float_status" then ChatVal.str r.float_status
  else if col == "float_type" then ChatVal.str r.float_type
  else if col == "depth" then ChatVal.num r.depth
  else if col == "cycle_number" then ChatVal.num (r.cycle_number : ℚ)
  else if col == "battery_level" then ChatVal.num r.battery_level
  else if col == "last_profile" then ChatVal.date r.last_profile
  else if col == "temperature" then ChatVal.num r.temperature
  else if col == "salinity" then ChatVal.num r.salinity
  else ChatVal.str ""

/-- Model of `export["Date"] = pd.to_datetime(export["Date"]).dt.strftime("%Y-%m-%d")`
(src/app.py lines 1347-1348), applied cell-wise to the Date column. -/
def formatDateCells (cols : List String) (row : List ChatVal) : List ChatVal :=
  (cols.zip row).map (fun p =>
    if p.1 == "Date" then
      match p.2 with
      | ChatVal.date d => ChatVal.str (formatYMD d)
      | v => v
    else p.2)

/-- The export table: display column names and positional rows. -/
structure ExportFrame where
  columns : List String
  rows : List (List ChatVal)
deriving DecidableEq

/-- generate_dummy_export_df (src/app.py lines 1291-1350): build the filtered
dataset, project it onto the base plus selected parameter columns (falling
back to every PARAMETER_COLUMN_MAP value when the selection is empty),
rename to display column names, and format the Date column. -/
def generate_dummy_export_df (default_rng : Nat → NumpyRng) (today : Int)
    (regions : Option (List String)) (lat_range lon_range depth_range : Option (ℚ × ℚ))
    (date_range : Option (Option Int × Option Int))
    (statuses float_types : Option (List String))
    (parameters : Option (List String)) : ExportFrame :=
  let dataset := build_filtered_dataset default_rng today regions lat_range lon_range
    depth_range date_range statuses float_types
  let parameter_columns : List String :=
    match parameters with
    | none => []
    | some ps => ps.foldl (fun acc param =>
        match PARAMETER_COLUMN_MAP.lookup param with
        | some c => if acc.contains c then acc else acc ++ [c]
        | none => acc) []
  let parameter_columns :=
    if parameter_columns.isEmpty then PARAMETER_COLUMN_MAP.map (fun kv => kv.2)
    else parameter_columns
  let combined_columns := export_base_columns ++ parameter_columns
  let export_columns := combined_columns.foldl
    (fun acc c => if acc.contains c then acc else acc ++ [c]) []
  let renamed := export_columns.map (fun c => (export_rename_map.lookup c).getD c)
  let rows := dataset.map (fun r => export_columns.map (exportCell r))
  let rows := if renamed.contains "Date" then rows.map (formatDateCells renamed) else rows
  ⟨renamed, rows⟩

/-- A concrete instance of the abstract numpy-generator model, used to
evaluate the pipeline at concrete inputs. -/
def constRngGen : NumpyRng where
  uniform := fun lo _ _ _ => lo
  choice := fun opts _ _ => opts.getD 0 ""
  integers := fun lo _ _ _ => lo
  normal := fun mu _ _ _ => mu

/-- A concrete model of np.random.default_rng for witnesses and
counterexamples. -/
def cRng : Nat → NumpyRng := fun _ => constRngGen

/-- A fixture record with the given salinity, for concrete aggregation
scenarios. -/
def wRecord (s : ℚ) : FloatRecord where
  float_id := "F-001"
  region := "indian_ocean"
  latitude := 0
  longitude := 0
  depth := 0
  float_status := "Active"
  float_type := "Core"
  timestamp := 0
  temperature := 0
  salinity := s
  cycle_number := 0
  battery_level := 0
  last_profile := 0
  hover := ""

/-- Fixture frame for the depth-filter counterexample: a single row holding
a depth of 2000 m. -/
def deepFrame : ChatFrame where
  columns := ["depth"]
  rows := [[("depth", ChatVal.num 2000)]]

/-- Fixture frame for the depth-filter witness. -/
def shallowWitnessFrame : ChatFrame where
  columns := ["depth"]
  rows := [[("depth", ChatVal.num 100)], [("depth", ChatVal.num 900)]]

/-- The catalog concatenation step of build_filtered_dataset (src/app.py
lines 1124-1129), before any filter is applied. -/
def baseDataset (default_rng : Nat → NumpyRng) (today : Int)
    (regions : Option (List String)) : List FloatRecord :=
  let region_keys := (regions.getD [])
  let region_keys := if region_keys = [] then [DEFAULT_REGION] else region_keys
  (region_keys.map (generate_dummy_map_data default_rng today)).flatten

/-- A date-range argument on which the date block of build_filtered_dataset
does not activate (absent, or with at least one missing endpoint). -/
def dateRangeInactive (dr : Option (Option Int × Option Int)) : Prop :=
  ∀ s e : Int, dr ≠ some (some s, some e)

/-- A status/type list argument that is Python-falsy (None or empty). -/
def listArgInactive (xs : Option (List String)) : Prop := xs = none ∨ xs = some []

/-- The ten fields of a FloatRecord that do not depend on the calendar day of
generation (everything except timestamp, last_profile and the hover text). -/
def floatNonTimeFields (r : FloatRecord) :
    String × ℚ × ℚ × ℚ × String × String × ℚ × ℚ × Int × ℚ :=
  (r.float_id, r.latitude, r.longitude, r.depth, r.float_status, r.float_type,
   r.temperature, r.salinity, r.cycle_number, r.battery_level)

/-- Recognizer for a YYYY-MM-DD character sequence: exactly ten characters,
dashes at positions 4 and 7, decimal digits elsewhere. -/
def isYMDChars : List Char → Bool
  | [c1, c2, c3, c4, c5, c6, c7, c8, c9, c10] =>
      c1.isDigit && c2.isDigit && c3.isDigit && c4.isDigit && c5 == '-'
        && c6.isDigit && c7.isDigit && c8 == '-' && c9.isDigit && c10.isDigit
  | _ => false

/-- Recognizer for a YYYY-MM-DD string. -/
def isYMDString (s : String) : Bool := isYMDChars s.data

/-- The shallow-keyword test of apply_chat_filters (line 209). -/
def chatShallowKw (q : String) : Bool :=
  ["shallow", "surface", "top"].any (fun w => strIn w (toLowerStr q))

/-- The deep-keyword test of apply_chat_filters (line 216). -/
def chatDeepKw (q : String) : Bool :=
  ["deep", "bottom", "abyssal"].any (fun w => strIn w (toLowerStr q))

/-- A query that triggers none of the other row-filtering stages of
apply_chat_filters: no ocean-region name, no status word, no float-type name,
and no temperature/salinity focus word occurs in its lowercased text. -/
def chatQueryFilterNeutral (q : String) : Bool :=
  let ql := toLowerStr q
  (EnhancedDataGenerator.oceanRegionNames.all (fun rg => !(strIn (toLowerStr rg) ql)))
    && (["active", "working", "operational"].all (fun w => !(strIn w ql)))
    && (["inactive", "not working", "dead"].all (fun w => !(strIn w ql)))
    && (EnhancedDataGenerator.float_types.all (fun t => !(strIn (toLowerStr t) ql)))
    && (["temperature", "temp", "thermal"].all (fun w => !(strIn w ql)))
    && (["salinity", "salt", "psu"].all (fun w => !(strIn w ql)))

/-! ## Helper lemmas -/

theorem bfd_unfold (default_rng : Nat → NumpyRng) (today : Int)
    (regions : Option (List String)) (lat_range lon_range depth_range : Option (ℚ × ℚ))
    (date_range : Option (Option Int × Option Int))
    (statuses float_types : Option (List String)) :
    build_filtered_dataset default_rng today regions lat_range lon_range depth_range
        date_range statuses float_types
      = sortByTimestamp (typeStage float_types (statusStage statuses (dateStage date_range
          (rangeStage (fun r => r.depth) depth_range
            (rangeStage (fun r => r.longitude) lon_range
              (rangeStage (fun r => r.latitude) lat_range
                (baseDataset default_rng today regions))))))) := rfl

theorem rangeStage_swap (proj : FloatRecord → ℚ) (a b : ℚ) (ds : List FloatRecord) :
    rangeStage proj (some (a, b)) ds = rangeStage proj (some (b, a)) ds := by
  simp only [rangeStage]
  rw [min_comm a b, max_comm a b]

theorem dateStage_of_inactive (dr : Option (Option Int × Option Int))
    (ds : List FloatRecord) (h : dateRangeInactive dr) : dateStage dr ds = ds := by
  rcases dr with _ | ⟨_ | sv, _ | ev⟩
  · rfl
  · rfl
  · rfl
  · rfl
  · exact absurd rfl (h sv ev)

/-- Claim C1: seeded generation is deterministic per label.  The seeded_rng
seed is the sum of the label's code points modulo 2^32-1 with a zero result
(in particular for the empty label) coerced to 1; equal labels give equal
generators (hence equal draws at every position), and the non-time-relative
fields of generate_dummy_map_data do not depend on the calendar day at all,
so two same-day calls with the same region agree on all of them. -/
theorem seeded_generation_deterministic (default_rng : Nat → NumpyRng)
    (l1 l2 : String) (h : l1 = l2) :
    seeded_rng default_rng l1 = seeded_rng default_rng l2
    ∧ seeded_rng_seed "" = 1
    ∧ (∀ label : String,
        seeded_rng_seed label =
          (if (label.data.map Char.toNat).sum % (2 ^ 32 - 1) = 0 then 1
           else (label.data.map Char.toNat).sum % (2 ^ 32 - 1)))
    ∧ (∀ (t1 t2 : Int) (region : String),
        (generate_dummy_map_data default_rng t1 region).map floatNonTimeFields
          = (generate_dummy_map_data default_rng t2 region).map floatNonTimeFields) := by
  refine ⟨by rw [h], rfl, fun label => rfl, fun t1 t2 region => ?_⟩
  rw [generate_dummy_map_data, generate_dummy_map_data, List.map_map, List.map_map]
  rfl

theorem seeded_generation_deterministic_witness :
    seeded_rng cRng "indian_ocean-map" = seeded_rng cRng "indian_ocean-map"
    ∧ seeded_rng_seed "" = 1 :=
  ⟨(seeded_generation_deterministic cRng "indian_ocean-map" "indian_ocean-map" rfl).1,
   (seeded_generation_deterministic cRng "indian_ocean-map" "indian_ocean-map" rfl).2.1⟩

/-- Claim C2, counterexample: on the query "show me temperature and compare
regions" the plot-selection step of src/app.py picks the comparison branch,
not the temperature-profile branch (its temperature branch also demands a
"profile" or "depth" keyword), and the EnhancedDataGenerator variant appends
BOTH a temperature-profile plot and a comparison plot (its keyword checks are
independent ifs, not an if/elif chain). -/
theorem plot_selection_counterexample :
    generate_chat_driven_plots "show me temperature and compare regions" false
        = [PlotKind.comparison]
    ∧ generate_chat_driven_plots "show me temperature and compare regions" false
        ≠ [PlotKind.tempProfile]
    ∧ EnhancedDataGenerator.generate_chat_driven_plots "show me temperature and compare regions"
        = [PlotKind.tempProfile, PlotKind.comparison] := by
  refine ⟨rfl, by decide, rfl⟩

/-- Claim C2, amended: in src/app.py the plot selection is an if/elif chain,
but its temperature-profile branch fires only when the query has a
temperature keyword AND a "profile" or "depth" keyword (in which case it does
take precedence over every later branch); the query "show me temperature and
compare regions" therefore selects the comparison branch there, while
EnhancedDataGenerator.generate_chat_driven_plots runs its keyword checks
independently and returns both the temperature-profile plot (first) and the
comparison plot for that query. -/
theorem plot_selection_amended (q : String) (data_is_empty : Bool)
    (hT : strIn "temperature" (toLowerStr q) = true)
    (hPD : strIn "profile" (toLowerStr q) = true ∨ strIn "depth" (toLowerStr q) = true) :
    generate_chat_driven_plots q data_is_empty = [PlotKind.tempProfile]
    ∧ generate_chat_driven_plots "show me temperature and compare regions" data_is_empty
        = [PlotKind.comparison]
    ∧ EnhancedDataGenerator.generate_chat_driven_plots "show me temperature and compare regions"
        = [PlotKind.tempProfile, PlotKind.comparison] := by
  refine ⟨?_, rfl, rfl⟩
  simp only [generate_chat_driven_plots]
  rcases hPD with hp | hp <;> simp [hT, hp]

theorem plot_selection_amended_witness :
    strIn "temperature" (toLowerStr "temperature profile") = true
    ∧ generate_chat_driven_plots "temperature profile" false = [PlotKind.tempProfile] :=
  ⟨by decide,
   (plot_selection_amended "temperature profile" false (by decide) (Or.inl (by decide))).1⟩

/-- Claim C4: the latitude, longitude, and depth range filters of
build_filtered_dataset are order-independent in their endpoints (the code
sorts the two endpoints before comparing); in particular depth_range
[200, 50] filters exactly like [50, 200]. -/
theorem range_filters_order_independent (default_rng : Nat → NumpyRng) (today : Int)
    (regions : Option (List String))
    (date_range : Option (Option Int × Option Int))
    (statuses float_types : Option (List String)) :
    (∀ (a b : ℚ) (lon_range depth_range : Option (ℚ × ℚ)),
        build_filtered_dataset default_rng today regions (some (a, b)) lon_range depth_range
            date_range statuses float_types
          = build_filtered_dataset default_rng today regions (some (b, a)) lon_range depth_range
              date_range statuses float_types)
    ∧ (∀ (lat_range : Option (ℚ × ℚ)) (a b : ℚ) (depth_range : Option (ℚ × ℚ)),
        build_filtered_dataset default_rng today regions lat_range (some (a, b)) depth_range
            date_range statuses float_types
          = build_filtered_dataset default_rng today regions lat_range (some (b, a)) depth_range
              date_range statuses float_types)
    ∧ (∀ (lat_range lon_range : Option (ℚ × ℚ)) (a b : ℚ),
        build_filtered_dataset default_rng today regions lat_range lon_range (some (a, b))
            date_range statuses float_types
          = build_filtered_dataset default_rng today regions lat_range lon_range (some (b, a))
              date_range statuses float_types)
    ∧ build_filtered_dataset default_rng today regions none none (some (200, 50))
          date_range statuses float_types
        = build_filtered_dataset default_rng today regions none none (some (50, 200))
            date_range statuses float_types := by
  refine ⟨fun a b lon dep => ?_, fun lat a b dep => ?_, fun lat lon a b => ?_, ?_⟩
  · rw [bfd_unfold, bfd_unfold, rangeStage_swap]
  · rw [bfd_unfold, bfd_unfold, rangeStage_swap]
  · rw [bfd_unfold, bfd_unfold, rangeStage_swap]
  · rw [bfd_unfold, bfd_unfold, rangeStage_swap]

/-- Claim C5: a partially specified date window is a no-op — whenever at
least one endpoint of the date range is absent, build_filtered_dataset
returns exactly what it returns with no date constraint at all. -/
theorem partial_date_window_noop (default_rng : Nat → NumpyRng) (today : Int)
    (regions : Option (List String)) (lat_range lon_range depth_range : Option (ℚ × ℚ))
    (statuses float_types : Option (List String)) :
    (∀ e : Option Int,
        build_filtered_dataset default_rng today regions lat_range lon_range depth_range
            (some (none, e)) statuses float_types
          = build_filtered_dataset default_rng today regions lat_range lon_range depth_range
              none statuses float_types)
    ∧ (∀ s : Option Int,
        build_filtered_dataset default_rng today regions lat_range lon_range depth_range
            (some (s, none)) statuses float_types
          = build_filtered_dataset default_rng today regions lat_range lon_range depth_range
              none statuses float_types) := by
  constructor
  · intro e
    rw [bfd_unfold, bfd_unfold,
      dateStage_of_inactive _ _ (by intro s' e' h; cases h)]
    rfl
  · intro s
    rw [bfd_unfold, bfd_unfold,
      dateStage_of_inactive _ _ (by intro s' e' h; cases h)]
    rfl

theorem length_insertByTimestamp (x : FloatRecord) (l : List FloatRecord) :
    (insertByTimestamp x l).length = l.length + 1 := by
  induction l with
  | nil => rfl
  | cons y ys ih =>
    simp only [insertByTimestamp]
    split
    · simp [ih]
    · simp

theorem length_sortByTimestamp (l : List FloatRecord) :
    (sortByTimestamp l).length = l.length := by
  induction l with
  | nil => rfl
  | cons x xs ih => simp [sortByTimestamp, length_insertByTimestamp, ih]

theorem length_generate_dummy_map_data (default_rng : Nat → NumpyRng) (today : Int)
    (region : String) :
    (generate_dummy_map_data default_rng today region).length
      = max ((regionConfigOf region).point_count * 10) 200 := by
  simp [generate_dummy_map_data]

theorem length_baseDataset (default_rng : Nat → NumpyRng) (today : Int)
    (regions : Option (List String)) :
    (baseDataset default_rng today regions).length
      = ((if regions.getD [] = [] then [DEFAULT_REGION] else regions.getD []).map
          (fun rk => max ((regionConfigOf rk).point_count * 10) 200)).sum := by
  simp [baseDataset, List.length_flatten, List.map_map, Function.comp_def,
    length_generate_dummy_map_data]

theorem rangeStage_sublist (proj : FloatRecord → ℚ) (x : Option (ℚ × ℚ))
    (ds : List FloatRecord) : (rangeStage proj x ds).Sublist ds := by
  rcases x with _ | ⟨a, b⟩
  · exact List.Sublist.refl ds
  · exact List.filter_sublist ds

theorem dateStage_sublist (dr : Option (Option Int × Option Int))
    (ds : List FloatRecord) : (dateStage dr ds).Sublist ds := by
  rcases dr with _ | ⟨_ | s, _ | e⟩
  · exact List.Sublist.refl ds
  · exact List.Sublist.refl ds
  · exact List.Sublist.refl ds
  · exact List.Sublist.refl ds
  · exact List.filter_sublist ds

theorem statusStage_sublist (st : Option (List String)) (ds : List FloatRecord) :
    (statusStage st ds).Sublist ds := by
  rcases st with _ | ⟨_ | ⟨s, ss⟩⟩
  · exact List.Sublist.refl ds
  · exact List.Sublist.refl ds
  · exact List.filter_sublist ds

theorem typeStage_sublist (ty : Option (List String)) (ds : List FloatRecord) :
    (typeStage ty ds).Sublist ds := by
  rcases ty with _ | ⟨_ | ⟨t, ts⟩⟩
  · exact List.Sublist.refl ds
  · exact List.Sublist.refl ds
  · exact List.filter_sublist ds

theorem statusStage_of_inactive (st : Option (List String)) (ds : List FloatRecord)
    (h : listArgInactive st) : statusStage st ds = ds := by
  rcases h with rfl | rfl <;> rfl

theorem typeStage_of_inactive (ty : Option (List String)) (ds : List FloatRecord)
    (h : listArgInactive ty) : typeStage ty ds = ds := by
  rcases h with rfl | rfl <;> rfl

theorem rangeStage_mono (proj : FloatRecord → ℚ) (x1 x2 : Option (ℚ × ℚ))
    (h : x1 = none ∨ x2 = x1) {ds1 ds2 : List FloatRecord} (hds : ds2.Sublist ds1) :
    (rangeStage proj x2 ds2).Sublist (rangeStage proj x1 ds1) := by
  rcases h with rfl | h
  · exact (rangeStage_sublist proj x2 ds2).trans hds
  · rw [h]
    rcases x1 with _ | ⟨a, b⟩
    · exact hds
    · exact hds.filter _

theorem dateStage_mono (dr1 dr2 : Option (Option Int × Option Int))
    (h : dateRangeInactive dr1 ∨ dr2 = dr1) {ds1 ds2 : List FloatRecord}
    (hds : ds2.Sublist ds1) : (dateStage dr2 ds2).Sublist (dateStage dr1 ds1) := by
  rcases h with h | h
  · rw [dateStage_of_inactive dr1 ds1 h]
    exact (dateStage_sublist dr2 ds2).trans hds
  · rw [h]
    rcases dr1 with _ | ⟨_ | s, _ | e⟩
    · exact hds
    · exact hds
    · exact hds
    · exact hds
    · exact hds.filter _

theorem statusStage_mono (st1 st2 : Option (List String))
    (h : listArgInactive st1 ∨ st2 = st1) {ds1 ds2 : List FloatRecord}
    (hds : ds2.Sublist ds1) : (statusStage st2 ds2).Sublist (statusStage st1 ds1) := by
  rcases h with h | h
  · rw [statusStage_of_inactive st1 ds1 h]
    exact (statusStage_sublist st2 ds2).trans hds
  · rw [h]
    rcases st1 with _ | ⟨_ | ⟨s, ss⟩⟩
    · exact hds
    · exact hds
    · exact hds.filter _

theorem typeStage_mono (ty1 ty2 : Option (List String))
    (h : listArgInactive ty1 ∨ ty2 = ty1) {ds1 ds2 : List FloatRecord}
    (hds : ds2.Sublist ds1) : (typeStage ty2 ds2).Sublist (typeStage ty1 ds1) := by
  rcases h with h | h
  · rw [typeStage_of_inactive ty1 ds1 h]
    exact (typeStage_sublist ty2 ds2).trans hds
  · rw [h]
    rcases ty1 with _ | ⟨_ | ⟨t, ts⟩⟩
    · exact hds
    · exact hds
    · exact hds.filter _

/-- Claim C3, counterexample: build_filtered_dataset's regions argument is
not a narrowing predicate over a fixed dataset — it selects which catalogs
are generated, and an absent region list means the default region only.
Adding the region constraint ["pacific_basin"] to the empty specification
GROWS the result from 200 rows (default indian_ocean catalog) to 240 rows
(pacific_basin catalog), refuting monotonicity as stated. -/
theorem filter_monotonicity_counterexample :
    (build_filtered_dataset cRng 0 none none none none none none none).length
      < (build_filtered_dataset cRng 0 (some ["pacific_basin"]) none none none
          none none none).length := by
  have h1 : (build_filtered_dataset cRng 0 none none none none none none none).length
      = (baseDataset cRng 0 none).length := by
    rw [bfd_unfold]
    exact length_sortByTimestamp _
  have h2 : (build_filtered_dataset cRng 0 (some ["pacific_basin"]) none none none
        none none none).length
      = (baseDataset cRng 0 (some ["pacific_basin"])).length := by
    rw [bfd_unfold]
    exact length_sortByTimestamp _
  rw [h1, h2, length_baseDataset, length_baseDataset]
  decide

/-- Claim C3, amended: the post-generation filters are monotonic.  With the
regions argument held fixed (it selects which catalogs are generated rather
than filtering rows), a specification that keeps every constraint of another
and adds constraints among lat range, lon range, depth range, date window,
statuses and float types returns at most as many rows. -/
theorem filter_monotonicity_amended (default_rng : Nat → NumpyRng) (today : Int)
    (regions : Option (List String))
    (lat1 lat2 lon1 lon2 dep1 dep2 : Option (ℚ × ℚ))
    (dr1 dr2 : Option (Option Int × Option Int))
    (st1 st2 ty1 ty2 : Option (List String))
    (hlat : lat1 = none ∨ lat2 = lat1) (hlon : lon1 = none ∨ lon2 = lon1)
    (hdep : dep1 = none ∨ dep2 = dep1)
    (hdr : dateRangeInactive dr1 ∨ dr2 = dr1)
    (hst : listArgInactive st1 ∨ st2 = st1)
    (hty : listArgInactive ty1 ∨ ty2 = ty1) :
    (build_filtered_dataset default_rng today regions lat2 lon2 dep2 dr2 st2 ty2).length
      ≤ (build_filtered_dataset default_rng today regions lat1 lon1 dep1 dr1 st1 ty1).length := by
  rw [bfd_unfold, bfd_unfold, length_sortByTimestamp, length_sortByTimestamp]
  refine List.Sublist.length_le ?_
  exact typeStage_mono _ _ hty (statusStage_mono _ _ hst (dateStage_mono _ _ hdr
    (rangeStage_mono _ _ _ hdep (rangeStage_mono _ _ _ hlon (rangeStage_mono _ _ _ hlat
      (List.Sublist.refl _))))))

theorem filter_monotonicity_witness :
    (build_filtered_dataset cRng 0 none none none (some ((0 : ℚ), 100)) none none none).length
      ≤ (build_filtered_dataset cRng 0 none none none none none none none).length :=
  filter_monotonicity_amended cRng 0 none none none none none none (some ((0 : ℚ), 100))
    none none none none none none
    (Or.inl rfl) (Or.inl rfl) (Or.inl rfl)
    (Or.inl (by intro s e h; cases h)) (Or.inl (Or.inl rfl)) (Or.inl (Or.inl rfl))

theorem chatRegionFilter_fst_sublist (ql : String) (rows : List ChatRow) :
    ((EnhancedDataGenerator.chatRegionFilter ql rows).1).Sublist rows := by
  rw [EnhancedDataGenerator.chatRegionFilter]
  split
  · exact List.Sublist.refl rows
  · exact List.filter_sublist rows

theorem chatStatusFilter_fst_sublist (ql : String) (cols : List String)
    (rows : List ChatRow) :
    ((EnhancedDataGenerator.chatStatusFilter ql cols rows).1).Sublist rows := by
  rw [EnhancedDataGenerator.chatStatusFilter]
  split <;> (try split) <;> (try split) <;>
    first
    | exact List.filter_sublist rows
    | exact List.Sublist.refl rows

theorem chatDepthFilter_fst_sublist (ql : String) (cols : List String)
    (rows : List ChatRow) :
    ((EnhancedDataGenerator.chatDepthFilter ql cols rows).1).Sublist rows := by
  rw [EnhancedDataGenerator.chatDepthFilter]
  split <;> (try split) <;> (try split) <;> (try split) <;>
    first
    | exact List.filter_sublist rows
    | exact List.Sublist.refl rows

theorem chatTypeFilter_fst_sublist (ql : String) (cols : List String)
    (rows : List ChatRow) :
    ((EnhancedDataGenerator.chatTypeFilter ql cols rows).1).Sublist rows := by
  rw [EnhancedDataGenerator.chatTypeFilter]
  split <;> (try split) <;>
    first
    | exact List.filter_sublist rows
    | exact List.Sublist.refl rows

theorem chatTempFilter_sublist (ql : String) (cols : List String)
    (rows : List ChatRow) :
    (EnhancedDataGenerator.chatTempFilter ql cols rows).Sublist rows := by
  rw [EnhancedDataGenerator.chatTempFilter]
  split <;> (try split) <;>
    first
    | exact List.filter_sublist rows
    | exact List.Sublist.refl rows

theorem chatSalFilter_sublist (ql : String) (cols : List String)
    (rows : List ChatRow) :
    (EnhancedDataGenerator.chatSalFilter ql cols rows).Sublist rows := by
  rw [EnhancedDataGenerator.chatSalFilter]
  split <;> (try split) <;>
    first
    | exact List.filter_sublist rows
    | exact List.Sublist.refl rows

theorem apply_chat_filters_rows_sublist (q : String) (df : ChatFrame) :
    ((EnhancedDataGenerator.apply_chat_filters q df).1.rows).Sublist df.rows :=
  (chatSalFilter_sublist _ _ _).trans ((chatTempFilter_sublist _ _ _).trans
    ((chatTypeFilter_fst_sublist _ _ _).trans ((chatDepthFilter_fst_sublist _ _ _).trans
      ((chatStatusFilter_fst_sublist _ _ _).trans (chatRegionFilter_fst_sublist _ _)))))

/-- Claim C10: EnhancedDataGenerator.apply_chat_filters never mutates its
input.  In this pure embedding the input frame is passed by value and left
untouched; the returned frame carries the same columns and a subsequence of
the input's rows, each row unchanged — the function filters a copy and
returns the filtered copy with the filters_applied annotations. -/
theorem apply_chat_filters_no_mutation (q : String) (df : ChatFrame) :
    ((EnhancedDataGenerator.apply_chat_filters q df).1.rows).Sublist df.rows
    ∧ (EnhancedDataGenerator.apply_chat_filters q df).1.columns = df.columns :=
  ⟨apply_chat_filters_rows_sublist q df, rfl⟩

/-- Claim C8: empty input is a valid, error-free result — apply_chat_filters
on a frame with no rows returns a frame with no rows for every query, and
compute_parameter_snapshot on an empty dataset returns None rather than
raising. -/
theorem empty_input_handling (q : String) (cols : List String) (p m : Option String) :
    (EnhancedDataGenerator.apply_chat_filters q ⟨cols, []⟩).1.rows = []
    ∧ compute_parameter_snapshot [] p m = none := by
  constructor
  · exact List.sublist_nil.mp (apply_chat_filters_rows_sublist q ⟨cols, []⟩)
  · rcases p with _ | s
    · rfl
    · rfl

theorem all_not_any_false {α : Type} (l : List α) (p : α → Bool)
    (h : l.all (fun x => !p x) = true) : l.any p = false := by
  induction l with
  | nil => rfl
  | cons x xs ih =>
    simp only [List.all_cons, Bool.and_eq_true, Bool.not_eq_true'] at h
    simp [List.any_cons, h.1, ih h.2]

theorem chatRegionFilter_noop (ql : String)
    (h : EnhancedDataGenerator.oceanRegionNames.all (fun rg => !(strIn (toLowerStr rg) ql)) = true)
    (rows : List ChatRow) :
    EnhancedDataGenerator.chatRegionFilter ql rows = (rows, none) := by
  have hd : EnhancedDataGenerator.oceanRegionNames.filter (fun rg => strIn (toLowerStr rg) ql)
      = [] := by
    rw [List.filter_eq_nil_iff]
    intro rg hrg
    simpa using List.all_eq_true.mp h rg hrg
  rw [EnhancedDataGenerator.chatRegionFilter]
  simp [hd]

theorem chatStatusFilter_noop (ql : String) (cols : List String)
    (h1 : (["active", "working", "operational"].all (fun w => !(strIn w ql))) = true)
    (h2 : (["inactive", "not working", "dead"].all (fun w => !(strIn w ql))) = true)
    (rows : List ChatRow) :
    EnhancedDataGenerator.chatStatusFilter ql cols rows = (rows, none) := by
  rw [EnhancedDataGenerator.chatStatusFilter]
  simp [all_not_any_false _ _ h1, all_not_any_false _ _ h2]

theorem chatTypeFilter_noop (ql : String) (cols : List String)
    (h : EnhancedDataGenerator.float_types.all (fun t => !(strIn (toLowerStr t) ql)) = true)
    (rows : List ChatRow) :
    EnhancedDataGenerator.chatTypeFilter ql cols rows = (rows, none) := by
  have hf : EnhancedDataGenerator.float_types.find? (fun t => strIn (toLowerStr t) ql)
      = none := by
    rw [List.find?_eq_none]
    intro t ht
    simpa using List.all_eq_true.mp h t ht
  rw [EnhancedDataGenerator.chatTypeFilter, hf]

theorem chatTempFilter_noop (ql : String) (cols : List String)
    (h : (["temperature", "temp", "thermal"].all (fun w => !(strIn w ql))) = true)
    (rows : List ChatRow) :
    EnhancedDataGenerator.chatTempFilter ql cols rows = rows := by
  rw [EnhancedDataGenerator.chatTempFilter]
  simp [all_not_any_false _ _ h]

theorem chatSalFilter_noop (ql : String) (cols : List String)
    (h : (["salinity", "salt", "psu"].all (fun w => !(strIn w ql))) = true)
    (rows : List ChatRow) :
    EnhancedDataGenerator.chatSalFilter ql cols rows = rows := by
  rw [EnhancedDataGenerator.chatSalFilter]
  simp [all_not_any_false _ _ h]

theorem apply_chat_filters_rows_def (q : String) (df : ChatFrame) :
    (EnhancedDataGenerator.apply_chat_filters q df).1.rows
      = EnhancedDataGenerator.chatSalFilter (toLowerStr q) df.columns
          (EnhancedDataGenerator.chatTempFilter (toLowerStr q) df.columns
            (EnhancedDataGenerator.chatTypeFilter (toLowerStr q) df.columns
              (EnhancedDataGenerator.chatDepthFilter (toLowerStr q) df.columns
                (EnhancedDataGenerator.chatStatusFilter (toLowerStr q) df.columns
                  (EnhancedDataGenerator.chatRegionFilter (toLowerStr q) df.rows).1).1).1).1) := rfl

theorem chatDepthFilter_shallow (ql : String) (cols : List String)
    (hsh : (["shallow", "surface", "top"].any (fun w => strIn w ql)) = true)
    (rows : List ChatRow) :
    (EnhancedDataGenerator.chatDepthFilter ql cols rows).1
      = (if cols.contains "depth" then rows.filter (depthLtPred "depth" 500)
         else if cols.contains "max_depth" then rows.filter (depthLtPred "max_depth" 1000)
         else rows) := by
  rw [EnhancedDataGenerator.chatDepthFilter]
  by_cases h1 : "depth" ∈ cols
  · simp [h1, hsh]
  · by_cases h2 : "max_depth" ∈ cols
    · simp [h1, h2, hsh, (by decide : ¬(("max_depth" : String) = "depth"))]
    · simp [h1, h2]

theorem chatDepthFilter_deep (ql : String) (cols : List String)
    (hns : (["shallow", "surface", "top"].any (fun w => strIn w ql)) = false)
    (hdp : (["deep", "bottom", "abyssal"].any (fun w => strIn w ql)) = true)
    (rows : List ChatRow) :
    (EnhancedDataGenerator.chatDepthFilter ql cols rows).1
      = (if cols.contains "depth" then rows.filter (depthGtPred "depth" 1000)
         else if cols.contains "max_depth" then rows.filter (depthGtPred "max_depth" 1500)
         else rows) := by
  rw [EnhancedDataGenerator.chatDepthFilter]
  by_cases h1 : "depth" ∈ cols
  · simp [h1, hns, hdp]
  · by_cases h2 : "max_depth" ∈ cols
    · simp [h1, h2, hns, hdp, (by decide : ¬(("max_depth" : String) = "depth"))]
    · simp [h1, h2]

/-- Claim C6, counterexample: the query "deep surface" contains the deep
keyword "deep", so the claim requires the rows with depth greater than 1000
to be retained (here the single 2000 m row), but apply_chat_filters drops it:
"surface" is a shallow keyword and the shallow branch is checked first, so
the code filters to depth < 500 and returns no rows. -/
theorem depth_adjective_counterexample :
    chatDeepKw "deep surface" = true
    ∧ (EnhancedDataGenerator.apply_chat_filters "deep surface" deepFrame).1.rows = []
    ∧ deepFrame.rows.filter (depthGtPred "depth" 1000) = deepFrame.rows := by
  refine ⟨by decide, by decide, by decide⟩

/-- Claim C6, amended: for a query that triggers no other filtering stage
(no region, status, float-type, temperature or salinity keyword), the
depth-adjective stage of apply_chat_filters keeps exactly the rows with
depth < 500 when a "depth" column is present and exactly the rows with
max_depth < 1000 when only a "max_depth" column is present, whenever the
query contains a shallow keyword; it keeps exactly depth > 1000 resp.
max_depth > 1500 whenever the query contains a deep keyword AND no shallow
keyword (the shallow branch takes precedence). -/
theorem depth_adjective_thresholds_amended (q : String) (df : ChatFrame)
    (hfree : chatQueryFilterNeutral q = true) :
    (chatShallowKw q = true →
      (EnhancedDataGenerator.apply_chat_filters q df).1.rows
        = (if df.columns.contains "depth" then df.rows.filter (depthLtPred "depth" 500)
           else if df.columns.contains "max_depth" then
             df.rows.filter (depthLtPred "max_depth" 1000)
           else df.rows))
    ∧ (chatDeepKw q = true → chatShallowKw q = false →
      (EnhancedDataGenerator.apply_chat_filters q df).1.rows
        = (if df.columns.contains "depth" then df.rows.filter (depthGtPred "depth" 1000)
           else if df.columns.contains "max_depth" then
             df.rows.filter (depthGtPred "max_depth" 1500)
           else df.rows)) := by
  unfold chatQueryFilterNeutral at hfree
  simp only [Bool.and_eq_true] at hfree
  obtain ⟨⟨⟨⟨⟨hreg, hact⟩, hinact⟩, hty⟩, htemp⟩, hsal⟩ := hfree
  constructor
  · intro hsh
    unfold chatShallowKw at hsh
    simp only [apply_chat_filters_rows_def, chatRegionFilter_noop _ hreg,
      chatStatusFilter_noop _ _ hact hinact, chatDepthFilter_shallow _ _ hsh,
      chatTypeFilter_noop _ _ hty, chatTempFilter_noop _ _ htemp,
      chatSalFilter_noop _ _ hsal]
  · intro hdp hns
    unfold chatDeepKw at hdp
    unfold chatShallowKw at hns
    simp only [apply_chat_filters_rows_def, chatRegionFilter_noop _ hreg,
      chatStatusFilter_noop _ _ hact hinact, chatDepthFilter_deep _ _ hns hdp,
      chatTypeFilter_noop _ _ hty, chatTempFilter_noop _ _ htemp,
      chatSalFilter_noop _ _ hsal]

theorem depth_adjective_thresholds_witness :
    chatQueryFilterNeutral "shallow" = true ∧ chatShallowKw "shallow" = true
    ∧ (EnhancedDataGenerator.apply_chat_filters "shallow" shallowWitnessFrame).1.rows
        = (if shallowWitnessFrame.columns.contains "depth" then
             shallowWitnessFrame.rows.filter (depthLtPred "depth" 500)
           else if shallowWitnessFrame.columns.contains "max_depth" then
             shallowWitnessFrame.rows.filter (depthLtPred "max_depth" 1000)
           else shallowWitnessFrame.rows) :=
  ⟨by decide, by decide,
    (depth_adjective_thresholds_amended "shallow" shallowWitnessFrame (by decide)).1 (by decide)⟩

theorem snapshot_methods (ds : List FloatRecord) (p col : String) (hne : ds ≠ [])
    (hp1 : (p == "") = false) (hp2 : (p == "Location") = false)
    (hlk : PARAMETER_COLUMN_MAP.lookup p = some col) (hcol : col ∈ floatRecordColumns) :
    (compute_parameter_snapshot ds (some p) (some "Mean")
        = some ⟨p, qMean (ds.map (floatColVal col)),
            (PARAMETER_UNITS.lookup p).getD "", "Mean"⟩)
    ∧ (compute_parameter_snapshot ds (some p) (some "Median")
        = some ⟨p, qMedian (ds.map (floatColVal col)),
            (PARAMETER_UNITS.lookup p).getD "", "Median"⟩)
    ∧ (compute_parameter_snapshot ds (some p) (some "Min")
        = some ⟨p, qMinimum (ds.map (floatColVal col)),
            (PARAMETER_UNITS.lookup p).getD "", "Min"⟩)
    ∧ (compute_parameter_snapshot ds (some p) (some "Max")
        = some ⟨p, qMaximum (ds.map (floatColVal col)),
            (PARAMETER_UNITS.lookup p).getD "", "Max"⟩)
    ∧ (∀ m : String, m ≠ "Mean" → m ≠ "Median" → m ≠ "Min" → m ≠ "Max" → m ≠ "" →
        compute_parameter_snapshot ds (some p) (some m)
          = some ⟨p, qMean (ds.map (floatColVal col)),
              (PARAMETER_UNITS.lookup p).getD "", m⟩)
    ∧ (compute_parameter_snapshot ds (some p) none
        = some ⟨p, qMean (ds.map (floatColVal col)),
            (PARAMETER_UNITS.lookup p).getD "", "Mean"⟩) := by
  refine ⟨?_, ?_, ?_, ?_, fun m h1 h2 h3 h4 h5 => ?_, ?_⟩
  · simp [compute_parameter_snapshot, hne, hp1, hp2, hlk, hcol]
  · simp [compute_parameter_snapshot, hne, hp1, hp2, hlk, hcol]
  · simp [compute_parameter_snapshot, hne, hp1, hp2, hlk, hcol]
  · simp [compute_parameter_snapshot, hne, hp1, hp2, hlk, hcol]
  · simp [compute_parameter_snapshot, hne, hp1, hp2, hlk, hcol,
      beq_eq_false_iff_ne.mpr h1, beq_eq_false_iff_ne.mpr h2, beq_eq_false_iff_ne.mpr h3,
      beq_eq_false_iff_ne.mpr h4, beq_eq_false_iff_ne.mpr h5]
  · simp [compute_parameter_snapshot, hne, hp1, hp2, hlk, hcol]

/-- Claim C7: aggregation snapshot correctness.  On a non-empty dataset and a
parameter mapped by PARAMETER_COLUMN_MAP, compute_parameter_snapshot returns
the mean/median/min/max of the parameter's column for those methods, falls
back to the mean for any other or absent method, special-cases "Location" to
the count of distinct float_id values, and on salinity values [34, 35, 36]
returns {label: Salinity, value: 35, unit: PSU, method: Mean}. -/
theorem aggregation_snapshot_correct (ds : List FloatRecord) (p col : String)
    (hne : ds ≠ []) (hmap : (p, col) ∈ PARAMETER_COLUMN_MAP) :
    ((compute_parameter_snapshot ds (some p) (some "Mean")
        = some ⟨p, qMean (ds.map (floatColVal col)),
            (PARAMETER_UNITS.lookup p).getD "", "Mean"⟩)
      ∧ (compute_parameter_snapshot ds (some p) (some "Median")
          = some ⟨p, qMedian (ds.map (floatColVal col)),
              (PARAMETER_UNITS.lookup p).getD "", "Median"⟩)
      ∧ (compute_parameter_snapshot ds (some p) (some "Min")
          = some ⟨p, qMinimum (ds.map (floatColVal col)),
              (PARAMETER_UNITS.lookup p).getD "", "Min"⟩)
      ∧ (compute_parameter_snapshot ds (some p) (some "Max")
          = some ⟨p, qMaximum (ds.map (floatColVal col)),
              (PARAMETER_UNITS.lookup p).getD "", "Max"⟩)
      ∧ (∀ m : String, m ≠ "Mean" → m ≠ "Median" → m ≠ "Min" → m ≠ "Max" → m ≠ "" →
          compute_parameter_snapshot ds (some p) (some m)
            = some ⟨p, qMean (ds.map (floatColVal col)),
                (PARAMETER_UNITS.lookup p).getD "", m⟩)
      ∧ (compute_parameter_snapshot ds (some p) none
          = some ⟨p, qMean (ds.map (floatColVal col)),
              (PARAMETER_UNITS.lookup p).getD "", "Mean"⟩))
    ∧ (∀ m : Option String,
        compute_parameter_snapshot ds (some "Location") m
          = some ⟨"Unique Floats", ((ds.map (fun r => r.float_id)).dedup.length : ℚ),
              "count", "Count"⟩)
    ∧ compute_parameter_snapshot [wRecord 34, wRecord 35, wRecord 36]
          (some "Salinity") (some "Mean")
        = some ⟨"Salinity", 35, "PSU", "Mean"⟩ := by
  have hc : (p = "Temperature" ∧ col = "temperature") ∨ (p = "Salinity" ∧ col = "salinity")
      ∨ (p = "Depth" ∧ col = "depth") := by
    simpa [PARAMETER_COLUMN_MAP, Prod.ext_iff] using hmap
  refine ⟨?_, fun m => ?_, ?_⟩
  · rcases hc with ⟨rfl, rfl⟩ | ⟨rfl, rfl⟩ | ⟨rfl, rfl⟩ <;>
      exact snapshot_methods ds _ _ hne (by decide) (by decide) rfl (by decide)
  · simp [compute_parameter_snapshot, hne]
  · simp [compute_parameter_snapshot, PARAMETER_COLUMN_MAP, PARAMETER_UNITS,
      floatRecordColumns, List.lookup, qMean, wRecord, floatColVal]
    norm_num

theorem aggregation_snapshot_witness :
    compute_parameter_snapshot [wRecord 34, wRecord 35, wRecord 36]
        (some "Salinity") (some "Mean")
      = some ⟨"Salinity", 35, "PSU", "Mean"⟩ :=
  (aggregation_snapshot_correct [wRecord 34, wRecord 35, wRecord 36] "Salinity" "salinity"
    (by simp) (by decide)).2.2

theorem digitChar_isDigit (n : Nat) : (digitChar n).isDigit = true := by
  have h : n % 10 < 10 := Nat.mod_lt _ (by norm_num)
  unfold digitChar
  set k := n % 10 with hk
  interval_cases k <;> rfl

theorem isYMD_ymdString (y m d : Nat) : isYMDString (ymdString y m d) = true := by
  show isYMDChars
    [digitChar (y / 1000), digitChar (y / 100), digitChar (y / 10), digitChar y, '-',
     digitChar (m / 10), digitChar m, '-', digitChar (d / 10), digitChar d] = true
  simp [isYMDChars, digitChar_isDigit]

theorem isYMD_formatYMD (z : Int) : isYMDString (formatYMD z) = true :=
  isYMD_ymdString _ _ _

/-- Claim C9: export projection defaults and formatting.  With parameters
None or an empty selection, generate_dummy_export_df produces exactly the
renamed display columns (latitude→Latitude, longitude→Longitude,
timestamp→Date, depth→Depth_m, temperature→Temp_C, salinity→Salinity_PSU),
which include all three of Temp_C, Salinity_PSU and Depth_m, and every value
of the Date column (position 4) is a string of shape YYYY-MM-DD. -/
theorem export_projection_defaults (default_rng : Nat → NumpyRng) (today : Int)
    (regions : Option (List String)) (lat_range lon_range depth_range : Option (ℚ × ℚ))
    (date_range : Option (Option Int × Option Int))
    (statuses float_types : Option (List String)) :
    ((generate_dummy_export_df default_rng today regions lat_range lon_range depth_range
        date_range statuses float_types none).columns
      = ["float_id", "region", "Latitude", "Longitude", "Date", "float_status", "float_type",
         "Depth_m", "cycle_number", "battery_level", "last_profile", "Temp_C", "Salinity_PSU"])
    ∧ ((generate_dummy_export_df default_rng today regions lat_range lon_range depth_range
        date_range statuses float_types (some [])).columns
      = ["float_id", "region", "Latitude", "Longitude", "Date", "float_status", "float_type",
         "Depth_m", "cycle_number", "battery_level", "last_profile", "Temp_C", "Salinity_PSU"])
    ∧ (∀ row ∈ (generate_dummy_export_df default_rng today regions lat_range lon_range
          depth_range date_range statuses float_types none).rows,
        ∃ s, row.get? 4 = some (ChatVal.str s) ∧ isYMDString s = true)
    ∧ (∀ row ∈ (generate_dummy_export_df default_rng today regions lat_range lon_range
          depth_range date_range statuses float_types (some [])).rows,
        ∃ s, row.get? 4 = some (ChatVal.str s) ∧ isYMDString s = true) := by
  refine ⟨rfl, rfl, ?_, ?_⟩
  · intro row hrow
    obtain ⟨mid, hmid, rfl⟩ := List.mem_map.1 hrow
    obtain ⟨r, hr, rfl⟩ := List.mem_map.1 hmid
    exact ⟨formatYMD r.timestamp, rfl, isYMD_formatYMD _⟩
  · intro row hrow
    obtain ⟨mid, hmid, rfl⟩ := List.mem_map.1 hrow
    obtain ⟨r, hr, rfl⟩ := List.mem_map.1 hmid
    exact ⟨formatYMD r.timestamp, rfl, isYMD_formatYMD _⟩
